import Mathlib

/-!
Shallow embedding of the launch orchestrator in src/lib.rs:
version registry, extension slots (pack loader, launch notifier),
event bus, and the staged asynchronous launch pipeline
start_engine_async.

Modelling choices:
* JS values (error payloads) are modelled as strings.
* The thread-local HashMap registries are modelled as association
  lists with insert-overwrites / remove / lookup semantics.
* A callback registered in a slot is modelled as a function from
  its two string arguments to a CallResult describing the four
  observable behaviours of a JS callback at a call site: it throws
  synchronously, it returns a plain (non-promise) value, it returns
  a promise that resolves, or it returns a promise that rejects.
* The two await points are the only suspension points; interleaved
  registry or slot mutations performed by other cooperative tasks
  while the pipeline is suspended are modelled as arbitrary state
  transformers i1 (during the pack-loader await) and i2 (during the
  notifier await), applied exactly when the corresponding await
  actually happens in the source.
* The pipeline result records the resolved outcome object, the
  trace of emit calls (event name and payload), and the final
  shared state.
-/

/-- An outcome record as built by start_engine_async via Reflect.set:
status, message, url, version. -/
structure Outcome where
  status : String
  message : String
  url : String
  version : String
deriving DecidableEq, Repr

/-- Payload of an emitted event: either a raw JS error value
(pack_load_failed, launcher_failed) or a full outcome record
(engine_started). -/
inductive Payload where
  | raw (e : String)
  | outcome (o : Outcome)
deriving DecidableEq, Repr

/-- Observable behaviour of one invocation of a registered JS callback:
throw synchronously, return a plain value, return a promise that
resolves, or return a promise that rejects. -/
inductive CallResult where
  | syncErr (e : String)
  | syncVal
  | promiseOk
  | promiseErr (e : String)
deriving DecidableEq, Repr

/-- A slot callback: invoked with (version, url), behaves as a CallResult. -/
def Callback := String → String → CallResult

/-- An event-bus listener: receives (eventName, payload) and may fail;
its result is discarded by emit_event. -/
def Handler := String → Payload → Except String Unit

/-- HashMap.insert on an association list: overwrite-on-insert. -/
def hmInsert (m : List (String × String)) (k v : String) : List (String × String) :=
  (k, v) :: m.filter (fun p => !(p.1 == k))

/-- HashMap.remove on an association list. -/
def hmRemove (m : List (String × String)) (k : String) : List (String × String) :=
  m.filter (fun p => !(p.1 == k))

/-- HashMap.get on an association list. -/
def hmGet (m : List (String × String)) (k : String) : Option String :=
  (m.find? (fun p => p.1 == k)).map Prod.snd

/-- The process-wide shared mutable state: the VERSIONS and
VERSION_INFOS registries and the two extension slots PACK_LOADER and
LAUNCH_CALLBACK. -/
structure EngineState where
  versions : List (String × String)
  versionInfos : List (String × String)
  packLoader : Option Callback
  launchCallback : Option Callback

/-- The thread-local state as first constructed: the two default
versions 1.8 and 1.12 with their info strings, both slots empty. -/
def initialState : EngineState :=
  { versions := [("1.8", "minecraft_1.8.html"), ("1.12", "minecraft_1.12.html")]
  , versionInfos :=
      [("1.8", "Minecraft 1.8 engine (stub)"), ("1.12", "Minecraft 1.12 engine (stub)")]
  , packLoader := none
  , launchCallback := none }

/-- list_versions: the registered version ids. -/
def list_versions (s : EngineState) : List String :=
  s.versions.map Prod.fst

/-- add_version: insert or overwrite version -> url; insert the info
string only when one is supplied; always returns true. -/
def add_version (s : EngineState) (version url : String) (info : Option String) :
    Bool × EngineState :=
  let s1 := { s with versions := hmInsert s.versions version url }
  let s2 :=
    match info with
    | some i => { s1 with versionInfos := hmInsert s1.versionInfos version i }
    | none => s1
  (true, s2)

/-- remove_version: remove from VERSIONS (recording whether it was
present) and from VERSION_INFOS; return whether VERSIONS had it. -/
def remove_version (s : EngineState) (version : String) : Bool × EngineState :=
  let removed := (hmGet s.versions version).isSome
  (removed,
    { s with versions := hmRemove s.versions version
           , versionInfos := hmRemove s.versionInfos version })

/-- version_info: the registered info string, or the sentinel. -/
def version_info (s : EngineState) (version : String) : String :=
  (hmGet s.versionInfos version).getD "unknown version"

/-- get_launch_url: the registered launch url, or the fallback. -/
def get_launch_url (s : EngineState) (version : String) : String :=
  (hmGet s.versions version).getD "index.html"

/-- Lookup of the listener registered for an event name. -/
def getListener (ls : List (String × Handler)) (event : String) : Option Handler :=
  (ls.find? (fun p => p.1 == event)).map Prod.snd

/-- emit_event: if a listener is registered for the event, invoke it
with (eventName, payload); the call result is discarded (let _ = ... in
the source).  The returned list records the invocation that took
place, with the discarded result. -/
def emit_event (ls : List (String × Handler)) (event : String) (payload : Payload) :
    List (String × Payload × Except String Unit) :=
  match getListener ls event with
  | some cb => [(event, payload, cb event payload)]
  | none => []

/-- internal_start_engine_stub: pure lookup producing (status, message). -/
def internal_start_engine_stub (version : String) : String × String :=
  match version with
  | "1.8" => ("ok", "mc18 engine started (stub)")
  | "1.12" => ("ok", "mc1.12 engine started (stub)")
  | _ => ("error", "unknown version: " ++ version)

/-- The error outcome object built at each failure site of the
pipeline: status error, the failure value as message, the captured
url and version. -/
def errOutcome (e url ver : String) : Outcome :=
  { status := "error", message := e, url := url, version := ver }

/-- Result of one start_engine_async call: the outcome the returned
promise resolves to, the trace of emit calls in order, and the shared
state when the call completes. -/
structure LaunchResult where
  outcome : Outcome
  events : List (String × Payload)
  state : EngineState

/-- Stages 2-3 of the pipeline, after the pack-load stage passed:
run internal_start_engine_stub, build the result object, emit
engine_started, then invoke the launcher callback if set, awaiting a
returned promise (i2 models interleaved mutations during that await). -/
def continueAfterPack (ver url : String) (s1 : EngineState)
    (ls : List (String × Handler)) (i2 : EngineState → EngineState) : LaunchResult :=
  let sm := internal_start_engine_stub ver
  let result : Outcome := { status := sm.1, message := sm.2, url := url, version := ver }
  let _ := emit_event ls "engine_started" (Payload.outcome result)
  let ev0 := [("engine_started", Payload.outcome result)]
  match s1.launchCallback with
  | none => { outcome := result, events := ev0, state := s1 }
  | some cb =>
    match cb ver url with
    | CallResult.syncErr e =>
        let _ := emit_event ls "launcher_failed" (Payload.raw e)
        { outcome := errOutcome e url ver
        , events := ev0 ++ [("launcher_failed", Payload.raw e)]
        , state := s1 }
    | CallResult.syncVal => { outcome := result, events := ev0, state := s1 }
    | CallResult.promiseOk => { outcome := result, events := ev0, state := i2 s1 }
    | CallResult.promiseErr e =>
        let _ := emit_event ls "launcher_failed" (Payload.raw e)
        { outcome := errOutcome e url ver
        , events := ev0 ++ [("launcher_failed", Payload.raw e)]
        , state := i2 s1 }

/-- start_engine_async: resolve the url once at entry, run the
pack-loader stage (i1 models interleaved mutations during its await,
applied exactly when the loader returned a promise), short-circuit on
a pack failure, otherwise continue with the engine-start and notifier
stages. -/
def start_engine_async (ver : String) (s0 : EngineState)
    (ls : List (String × Handler)) (i1 i2 : EngineState → EngineState) : LaunchResult :=
  let url := (hmGet s0.versions ver).getD "index.html"
  let pack_ok := s0.packLoader.map (fun f => f ver url)
  match pack_ok with
  | some (CallResult.syncErr e) =>
      let _ := emit_event ls "pack_load_failed" (Payload.raw e)
      { outcome := errOutcome e url ver
      , events := [("pack_load_failed", Payload.raw e)]
      , state := s0 }
  | some (CallResult.promiseErr e) =>
      let _ := emit_event ls "pack_load_failed" (Payload.raw e)
      { outcome := errOutcome e url ver
      , events := [("pack_load_failed", Payload.raw e)]
      , state := i1 s0 }
  | some CallResult.promiseOk => continueAfterPack ver url (i1 s0) ls i2
  | some CallResult.syncVal => continueAfterPack ver url s0 ls i2
  | none => continueAfterPack ver url s0 ls i2

/-- Pack-loader fixture: a callback whose returned promise rejects. -/
def packFailCb : Callback := fun _ _ => CallResult.promiseErr "boom"

/-- State with the pack-loader slot occupied by packFailCb. -/
def packFailState : EngineState := { initialState with packLoader := some packFailCb }

/-- Notifier fixture: a callback whose returned promise rejects. -/
def notifyFailCb : Callback := fun _ _ => CallResult.promiseErr "nope"

/-- State with the launcher-callback slot occupied by notifyFailCb. -/
def notifyFailState : EngineState := { initialState with launchCallback := some notifyFailCb }

theorem hmGet_insert_self (m : List (String × String)) (k v : String) :
    hmGet (hmInsert m k v) k = some v := by
  simp [hmGet, hmInsert, List.find?]

theorem hmGet_remove_self (m : List (String × String)) (k : String) :
    hmGet (hmRemove m k) k = none := by
  induction m with
  | nil => rfl
  | cons a t ih =>
      by_cases h : a.1 = k
      · simpa [hmRemove, List.filter_cons, h] using ih
      · rw [show hmRemove (a :: t) k = a :: hmRemove t k by
            simp [hmRemove, List.filter_cons, h]]
        simpa [hmGet, List.find?_cons, h] using ih

theorem continueAfterPack_outcome_url (ver url : String) (s1 : EngineState)
    (ls : List (String × Handler)) (i2 : EngineState → EngineState) :
    (continueAfterPack ver url s1 ls i2).outcome.url = url := by
  rcases hcb : s1.launchCallback with _ | cb
  · simp [continueAfterPack, hcb]
  · rcases hr : cb ver url with e | _ | _ | e <;>
      simp [continueAfterPack, hcb, hr, errOutcome]

theorem continueAfterPack_status (ver url : String) (s1 : EngineState)
    (ls : List (String × Handler)) (i2 : EngineState → EngineState) :
    (continueAfterPack ver url s1 ls i2).outcome.status = "ok" ∨
    (continueAfterPack ver url s1 ls i2).outcome.status = "error" := by
  have hstub : (internal_start_engine_stub ver).1 = "ok" ∨
      (internal_start_engine_stub ver).1 = "error" := by
    unfold internal_start_engine_stub
    split <;> simp
  rcases hcb : s1.launchCallback with _ | cb
  · simpa [continueAfterPack, hcb] using hstub
  · rcases hr : cb ver url with e | _ | _ | e <;>
      simp [continueAfterPack, hcb, hr, errOutcome] <;> exact hstub

theorem continueAfterPack_listeners (ver url : String) (s1 : EngineState)
    (ls ls2 : List (String × Handler)) (i2 : EngineState → EngineState) :
    continueAfterPack ver url s1 ls i2 = continueAfterPack ver url s1 ls2 i2 := by
  rcases hcb : s1.launchCallback with _ | cb
  · simp [continueAfterPack, hcb]
  · rcases hr : cb ver url with e | _ | _ | e <;>
      simp [continueAfterPack, hcb, hr]

/-- C10: the thread-local registries start non-empty: 1.8 and 1.12 are
registered with their launch targets and info strings before any
add_version call, so list_versions is initially non-empty and both
get_launch_url and remove_version on 1.8 succeed without a prior add. -/
theorem default_versions_preregistered :
    hmGet initialState.versions "1.8" = some "minecraft_1.8.html" ∧
    hmGet initialState.versions "1.12" = some "minecraft_1.12.html" ∧
    version_info initialState "1.8" = "Minecraft 1.8 engine (stub)" ∧
    version_info initialState "1.12" = "Minecraft 1.12 engine (stub)" ∧
    list_versions initialState ≠ [] ∧
    get_launch_url initialState "1.8" = "minecraft_1.8.html" ∧
    (remove_version initialState "1.8").1 = true := by
  refine ⟨rfl, ?_, rfl, ?_, ?_, rfl, rfl⟩ <;> decide

/-- C7: add_version with the info argument omitted returns true, sets
the VERSIONS entry for the id to the new target (overwriting any
previous one), and leaves the whole VERSION_INFOS map untouched. -/
theorem add_version_omitted_info_frame (s : EngineState) (v t : String) :
    (add_version s v t none).1 = true ∧
    hmGet (add_version s v t none).2.versions v = some t ∧
    (add_version s v t none).2.versionInfos = s.versionInfos := by
  refine ⟨rfl, ?_, rfl⟩
  exact hmGet_insert_self s.versions v t

/-- C6: remove_version returns exactly the presence of the id in
VERSIONS: it returns true right after an add of that id, removes the
entry so that the id is absent afterwards, and returns false on a
second removal (hence false for an id never added or already removed). -/
theorem remove_version_reports_presence (s : EngineState) (v t : String) (d : Option String) :
    (remove_version s v).1 = (hmGet s.versions v).isSome ∧
    hmGet (remove_version s v).2.versions v = none ∧
    (remove_version (add_version s v t d).2 v).1 = true ∧
    (remove_version (remove_version s v).2 v).1 = false := by
  refine ⟨rfl, ?_, ?_, ?_⟩
  · exact hmGet_remove_self s.versions v
  · cases d <;> simp [remove_version, add_version, hmGet_insert_self]
  · simp [remove_version, hmGet_remove_self]

/-- C8: for an id with no entry in either registry map, get_launch_url
returns the fallback target index.html and version_info returns the
unknown-version sentinel; both are read-only lookups (they are pure
functions of the state and return only a string). -/
theorem unknown_id_defaults (s : EngineState) (v : String)
    (h1 : hmGet s.versions v = none) (h2 : hmGet s.versionInfos v = none) :
    get_launch_url s v = "index.html" ∧ version_info s v = "unknown version" := by
  simp [get_launch_url, version_info, h1, h2]

/-- C8 witness: an id absent from the default registries hits both
fallbacks. -/
theorem unknown_id_defaults_witness :
    get_launch_url initialState "bogus" = "index.html" ∧
    version_info initialState "bogus" = "unknown version" :=
  unknown_id_defaults initialState "bogus" rfl rfl

/-- C5: the launch target is resolved once at entry of
start_engine_async, so whatever registry or slot mutations interleave
at the two await points (i1, i2), the url field of the returned
outcome equals the target resolved from the entry-time state. -/
theorem target_resolved_once_at_entry (ver : String) (s : EngineState)
    (ls : List (String × Handler)) (i1 i2 : EngineState → EngineState) :
    (start_engine_async ver s ls i1 i2).outcome.url = get_launch_url s ver := by
  have hurl : get_launch_url s ver = (hmGet s.versions ver).getD "index.html" := rfl
  rw [hurl]
  unfold start_engine_async
  rcases hp : s.packLoader with _ | f
  · simpa [hp] using continueAfterPack_outcome_url ver _ s ls i2
  · rcases hx : f ver ((hmGet s.versions ver).getD "index.html") with e | _ | _ | e <;>
      simp [hp, hx, errOutcome] <;>
      exact continueAfterPack_outcome_url ver _ _ ls i2

/-- C1: start_engine_async is a total function: every call, whatever
the registered callbacks do at every stage, produces exactly one
outcome record (the LaunchResult.outcome field, which by construction
carries status, message, url and version), and its status field is
either ok or error. -/
theorem launch_always_wellformed_outcome (ver : String) (s : EngineState)
    (ls : List (String × Handler)) (i1 i2 : EngineState → EngineState) :
    (start_engine_async ver s ls i1 i2).outcome.status = "ok" ∨
    (start_engine_async ver s ls i1 i2).outcome.status = "error" := by
  unfold start_engine_async
  rcases hp : s.packLoader with _ | f
  · simpa [hp] using continueAfterPack_status ver _ s ls i2
  · rcases hx : f ver ((hmGet s.versions ver).getD "index.html") with e | _ | _ | e <;>
      simp [hp, hx, errOutcome] <;>
      exact continueAfterPack_status ver _ _ ls i2

/-- C2: when the pack-loader slot is occupied and the loader either
throws synchronously or its returned promise rejects with e, the call
resolves to the error outcome carrying e and the entry-resolved
target, the pack_load_failed event is emitted exactly once with
payload e, and no later stage runs: engine_started is never emitted. -/
theorem pack_loader_failure_shortcircuits (ver e : String) (s : EngineState)
    (ls : List (String × Handler)) (i1 i2 : EngineState → EngineState) (f : Callback)
    (hf : s.packLoader = some f)
    (he : f ver (get_launch_url s ver) = CallResult.syncErr e ∨
          f ver (get_launch_url s ver) = CallResult.promiseErr e) :
    (start_engine_async ver s ls i1 i2).outcome = errOutcome e (get_launch_url s ver) ver ∧
    (start_engine_async ver s ls i1 i2).events = [("pack_load_failed", Payload.raw e)] ∧
    ((start_engine_async ver s ls i1 i2).events.countP
        (fun q => q.1 == "pack_load_failed")) = 1 ∧
    ((start_engine_async ver s ls i1 i2).events.countP
        (fun q => q.1 == "engine_started")) = 0 := by
  simp only [get_launch_url] at he ⊢
  rcases he with he | he <;>
    simp [start_engine_async, hf, he, errOutcome, List.countP_cons]

/-- C2 witness: with the default registry and a pack loader whose
promise rejects with the value boom, launching 1.8 yields the error
outcome and only the pack_load_failed emission. -/
theorem pack_loader_failure_shortcircuits_witness :
    (start_engine_async "1.8" packFailState [] id id).outcome =
      errOutcome "boom" (get_launch_url packFailState "1.8") "1.8" ∧
    (start_engine_async "1.8" packFailState [] id id).events =
      [("pack_load_failed", Payload.raw "boom")] ∧
    ((start_engine_async "1.8" packFailState [] id id).events.countP
        (fun q => q.1 == "pack_load_failed")) = 1 ∧
    ((start_engine_async "1.8" packFailState [] id id).events.countP
        (fun q => q.1 == "engine_started")) = 0 :=
  pack_loader_failure_shortcircuits "1.8" "boom" packFailState [] id id packFailCb
    rfl (Or.inr rfl)

/-- C3: when the pack-load stage passes (slot empty, or the loader
returns a plain value or a resolving promise) and the launcher
callback fails synchronously or by promise rejection with e, the
trace is exactly engine_started (with the stage-4 outcome) followed
by launcher_failed (with e), each once, and the call resolves to the
notifier error outcome, superseding the engine-start outcome.  Stated
with no interleaved mutation during the pack await, so the notifier
slot read at stage 3 is the one of the entry state. -/
theorem notifier_failure_supersedes (ver e : String) (s : EngineState)
    (ls : List (String × Handler)) (i2 : EngineState → EngineState) (cb : Callback)
    (hpack : s.packLoader = none ∨
      ∃ f, s.packLoader = some f ∧
        (f ver (get_launch_url s ver) = CallResult.syncVal ∨
         f ver (get_launch_url s ver) = CallResult.promiseOk))
    (hcb : s.launchCallback = some cb)
    (he : cb ver (get_launch_url s ver) = CallResult.syncErr e ∨
          cb ver (get_launch_url s ver) = CallResult.promiseErr e) :
    (start_engine_async ver s ls id i2).events =
      [("engine_started", Payload.outcome
          { status := (internal_start_engine_stub ver).1
          , message := (internal_start_engine_stub ver).2
          , url := get_launch_url s ver, version := ver })
      , ("launcher_failed", Payload.raw e)] ∧
    (start_engine_async ver s ls id i2).outcome = errOutcome e (get_launch_url s ver) ver ∧
    ((start_engine_async ver s ls id i2).events.countP
        (fun q => q.1 == "engine_started")) = 1 ∧
    ((start_engine_async ver s ls id i2).events.countP
        (fun q => q.1 == "launcher_failed")) = 1 := by
  simp only [get_launch_url] at he hpack ⊢
  rcases hpack with hp | ⟨f, hp, hf⟩
  · rcases he with he | he <;>
      simp [start_engine_async, continueAfterPack, hp, hcb, he, errOutcome, List.countP_cons]
  · rcases hf with hf | hf <;> rcases he with he | he <;>
      simp [start_engine_async, continueAfterPack, hp, hf, hcb, he, errOutcome,
        List.countP_cons]

/-- C3 witness: with the default registry, no pack loader, and a
launcher callback whose promise rejects with the value nope,
launching 1.8 emits engine_started then launcher_failed and resolves
to the notifier error outcome. -/
theorem notifier_failure_supersedes_witness :
    (start_engine_async "1.8" notifyFailState [] id id).events =
      [("engine_started", Payload.outcome
          { status := (internal_start_engine_stub "1.8").1
          , message := (internal_start_engine_stub "1.8").2
          , url := get_launch_url notifyFailState "1.8", version := "1.8" })
      , ("launcher_failed", Payload.raw "nope")] ∧
    (start_engine_async "1.8" notifyFailState [] id id).outcome =
      errOutcome "nope" (get_launch_url notifyFailState "1.8") "1.8" ∧
    ((start_engine_async "1.8" notifyFailState [] id id).events.countP
        (fun q => q.1 == "engine_started")) = 1 ∧
    ((start_engine_async "1.8" notifyFailState [] id id).events.countP
        (fun q => q.1 == "launcher_failed")) = 1 :=
  notifier_failure_supersedes "1.8" "nope" notifyFailState [] id notifyFailCb
    (Or.inl rfl) rfl (Or.inr rfl)

/-- C4: for a version id other than the two stub versions, the
engine-start stage is a total lookup returning status error with the
unknown-version message, and launching it from the default state with
both slots empty resolves to that error outcome with the fallback
target, while engine_started is still emitted, with this error-status
outcome as payload. -/
theorem unknown_version_degrades (ver : String) (ls : List (String × Handler))
    (i1 i2 : EngineState → EngineState) (h1 : ver ≠ "1.8") (h2 : ver ≠ "1.12") :
    internal_start_engine_stub ver = ("error", "unknown version: " ++ ver) ∧
    (start_engine_async ver initialState ls i1 i2).outcome =
      { status := "error", message := "unknown version: " ++ ver
      , url := "index.html", version := ver } ∧
    (start_engine_async ver initialState ls i1 i2).events =
      [("engine_started", Payload.outcome
          { status := "error", message := "unknown version: " ++ ver
          , url := "index.html", version := ver })] := by
  have hstub : internal_start_engine_stub ver = ("error", "unknown version: " ++ ver) := by
    unfold internal_start_engine_stub
    split
    · exact absurd rfl h1
    · exact absurd rfl h2
    · rfl
  have hb1 : (("1.8" : String) == ver) = false :=
    beq_eq_false_iff_ne.mpr (Ne.symm h1)
  have hb2 : (("1.12" : String) == ver) = false :=
    beq_eq_false_iff_ne.mpr (Ne.symm h2)
  have hget : hmGet initialState.versions ver = none := by
    simp [hmGet, initialState, List.find?_cons, hb1, hb2]
  have hpl : initialState.packLoader = none := rfl
  have hlc : initialState.launchCallback = none := rfl
  refine ⟨hstub, ?_, ?_⟩ <;>
    simp [start_engine_async, continueAfterPack, hget, hpl, hlc, hstub]

/-- C4 witness: launching the id bogus with empty slots from the
default state. -/
theorem unknown_version_degrades_witness :
    internal_start_engine_stub "bogus" = ("error", "unknown version: " ++ "bogus") ∧
    (start_engine_async "bogus" initialState [] id id).outcome =
      { status := "error", message := "unknown version: " ++ "bogus"
      , url := "index.html", version := "bogus" } ∧
    (start_engine_async "bogus" initialState [] id id).events =
      [("engine_started", Payload.outcome
          { status := "error", message := "unknown version: " ++ "bogus"
          , url := "index.html", version := "bogus" })] :=
  unknown_version_degrades "bogus" [] id id (by decide) (by decide)

/-- C9: emit_event invokes a registered listener at most once, with
exactly the emitted event name and payload (the invocation list is
empty or the singleton of that invocation, whatever result the
listener produces), and listener behaviour is fully isolated from the
pipeline: start_engine_async yields identical outcome, trace and
final state under any two listener tables, so a listener failure
never propagates into or alters an in-flight launch. -/
theorem emit_event_isolated (ls : List (String × Handler)) (e : String) (p : Payload) :
    (emit_event ls e p).length ≤ 1 ∧
    (emit_event ls e p = [] ∨ ∃ r, emit_event ls e p = [(e, p, r)]) ∧
    (∀ ver s ls2 i1 i2, start_engine_async ver s ls i1 i2 =
        start_engine_async ver s ls2 i1 i2) := by
  refine ⟨?_, ?_, ?_⟩
  · unfold emit_event
    rcases h : getListener ls e with _ | cb <;> simp [h]
  · unfold emit_event
    rcases h : getListener ls e with _ | cb
    · simp [h]
    · exact Or.inr ⟨cb e p, by simp [h]⟩
  · intro ver s ls2 i1 i2
    unfold start_engine_async
    rcases hp : s.packLoader with _ | f
    · simpa [hp] using continueAfterPack_listeners ver _ s ls ls2 i2
    · rcases hx : f ver ((hmGet s.versions ver).getD "index.html") with e2 | _ | _ | e2 <;>
        simp [hp, hx] <;>
        exact continueAfterPack_listeners ver _ _ ls ls2 i2
